import Mathlib

/-!
Verification of the task orchestration module (`pytext/task/task.py`).

The module wires up a data handler, featurizer, model, optimizer, scheduler,
metric reporter and optional exporter from a declarative configuration
(`TaskBase.from_config`) and exposes `train`, `test`, `predict` and `export`
entry points over that assembly.  All collaborators (DataHandler, Model,
Trainer, MetricReporter, ModelExporter, the component factories) are external
to the module and are modelled abstractly: a signature `Sig` of opaque
component types and an environment `Env` of the collaborator operations the
module calls.  Factory calls may fail (a registry miss or a raising
constructor), modelled by `Option`; the orchestration functions additionally
return a trace of the externally observable calls they make, in order, so
that sequencing properties can be stated.
-/

namespace PyTextTask

/-- Abstract types of the external collaborators and of the configuration
sub-records.  `task.py` never inspects these; it only passes them around. -/
structure Sig where
  FeaturesCfg : Type
  FeaturizerCfg : Type
  LabelsCfg : Type
  DataHandlerCfg : Type
  TrainerCfg : Type
  OptimizerCfg : Type
  SchedulerCfg : Type
  ExporterCfg : Type
  ModelCfg : Type
  MetricReporterCfg : Type
  Featurizer : Type
  Metadata : Type
  ModelState : Type
  Model : Type
  MetricReporter : Type
  Optimizers : Type
  Exporter : Type
  Trainer : Type
  Scheduler : Type
  TestIter : Type
  TestResult : Type
  Example : Type
  PredictInput : Type
  ModelOutput : Type
  Prediction : Type
  Score : Type
  TargetMeta : Type
  DummyInput : Type
  SummaryWriter : Type

/-- The task configuration record (`TaskBase.Config`, together with the
`labels`, `model` and `metric_reporter` sub-configs that `from_config` reads
from the concrete task's config).  `scheduler` and `exporter` are optional. -/
structure TaskConfig (s : Sig) where
  features : s.FeaturesCfg
  featurizer : s.FeaturizerCfg
  data_handler : s.DataHandlerCfg
  trainer : s.TrainerCfg
  optimizer : s.OptimizerCfg
  scheduler : Option s.SchedulerCfg
  exporter : Option s.ExporterCfg
  labels : s.LabelsCfg
  model : s.ModelCfg
  metric_reporter : s.MetricReporterCfg

/-- The observable state of a data handler: its `metadata` property and the
mutable `test_path` field; everything else about the handler is opaque. -/
structure DataHandler (s : Sig) where
  metadata : s.Metadata
  test_path : String

/-- The context mapping returned by `get_predict_iter`; `predict` reads its
`BatchContext.INDEX` entry, a list giving for each internally processed
position the index of the original example it came from. -/
structure PredictContext where
  index : List Nat

/-- One formatted prediction record, `{"prediction": ..., "score": ...}`. -/
structure PredRecord (s : Sig) where
  prediction : s.Prediction
  score : s.Score

/-- Operations of the external collaborators, as called by `task.py`.
Factories return `none` when the config does not resolve to a registered
implementation (or the constructor raises).  `metaTruthy` and `stateTruthy`
are Python truthiness of a metadata / model-state object (e.g. an empty
mapping is falsy). -/
structure Env (s : Sig) where
  create_featurizer : s.FeaturizerCfg → s.FeaturesCfg → Option s.Featurizer
  create_data_handler :
    s.DataHandlerCfg → s.FeaturesCfg → s.LabelsCfg → s.Featurizer → Option (DataHandler s)
  load_metadata : DataHandler s → s.Metadata → DataHandler s
  init_metadata : DataHandler s → DataHandler s
  create_model : s.ModelCfg → s.FeaturesCfg → s.Metadata → Option s.Model
  load_state_dict : s.Model → s.ModelState → s.Model
  cuda : s.Model → s.Model
  cpu : s.Model → s.Model
  evalMode : s.Model → s.Model
  create_metric_reporter : s.MetricReporterCfg → s.Metadata → Option s.MetricReporter
  lower_is_better : s.MetricReporter → Bool
  create_optimizer : s.Model → s.OptimizerCfg → Option s.Optimizers
  create_exporter :
    s.ExporterCfg → s.FeaturesCfg → s.LabelsCfg → s.Metadata → s.ModelCfg → Option s.Exporter
  create_trainer : s.TrainerCfg → Option s.Trainer
  scheduler_mk : s.Optimizers → Option s.SchedulerCfg → Bool → s.Scheduler
  metaTruthy : s.Metadata → Bool
  stateTruthy : s.ModelState → Bool
  get_test_iter : DataHandler s → s.TestIter
  trainer_test : s.Trainer → s.TestIter → s.Model → s.MetricReporter → s.TestResult
  get_predict_iter : DataHandler s → List s.Example → s.PredictInput × PredictContext
  forward : s.Model → s.PredictInput → s.ModelOutput
  get_pred : s.Model → s.ModelOutput → List s.Prediction × List s.Score
  target : s.Metadata → s.TargetMeta
  dummy_model_input : s.Exporter → s.DummyInput

/-- Python truthiness of an optional argument: `None` is falsy, a present
object is as truthy as the object itself. -/
def pyTruthy {a : Type} (truthy : a → Bool) : Option a → Bool
  | none => false
  | some x => truthy x

/-- The assembled task aggregate (`TaskBase.__init__` fields). -/
structure Task (s : Sig) where
  trainer : s.Trainer
  data_handler : DataHandler s
  model : s.Model
  metric_reporter : s.MetricReporter
  optimizers : s.Optimizers
  lr_scheduler : s.Scheduler
  exporter : Option s.Exporter

/-- Externally observable calls made by `from_config`, in program order. -/
inductive AsmEvent where
  | printConfig
  | createFeaturizer
  | createDataHandler
  | loadMetadata
  | initMetadata
  | createModel
  | loadStateDict
  | cudaMove
  | createMetricReporter
  | createOptimizer
  | createExporter
  | createTrainer
  | mkScheduler
deriving DecidableEq, Repr

/-- The metadata-resolution step of `from_config`: `if metadata:
data_handler.load_metadata(metadata) else: data_handler.init_metadata()`
(Python truthiness: `None` and falsy objects take the `init` branch). -/
def mdResolve {s : Sig} (env : Env s) (data_handler : DataHandler s) :
    Option s.Metadata → DataHandler s
  | some m =>
    if env.metaTruthy m then env.load_metadata data_handler m
    else env.init_metadata data_handler
  | none => env.init_metadata data_handler

/-- The collaborator call made by the metadata-resolution step. -/
def mdEvent {s : Sig} (env : Env s) : Option s.Metadata → AsmEvent
  | some m => if env.metaTruthy m then AsmEvent.loadMetadata else AsmEvent.initMetadata
  | none => AsmEvent.initMetadata

/-- The model-state step of `from_config`: `if model_state:
model.load_state_dict(model_state)` (again Python truthiness). -/
def msApply {s : Sig} (env : Env s) (model : s.Model) : Option s.ModelState → s.Model
  | some st => if env.stateTruthy st then env.load_state_dict model st else model
  | none => model

/-- The collaborator calls made by the model-state step. -/
def msEvents {s : Sig} (env : Env s) : Option s.ModelState → List AsmEvent
  | some st => if env.stateTruthy st then [AsmEvent.loadStateDict] else []
  | none => []

/-- `TaskBase.from_config(task_config, metadata=None, model_state=None)`:
assemble the task.  Returns `none` when some factory call fails (the whole
assembly is all-or-nothing), paired with the trace of calls made up to that
point.  `cudaEnabled` is the process-global `cuda_utils.CUDA_ENABLED` flag at
assembly time. -/
def from_config {s : Sig} (env : Env s) (cudaEnabled : Bool) (task_config : TaskConfig s)
    (metadata : Option s.Metadata) (model_state : Option s.ModelState) :
    Option (Task s) × List AsmEvent :=
  let tr := [AsmEvent.printConfig, AsmEvent.createFeaturizer]
  match env.create_featurizer task_config.featurizer task_config.features with
  | none => (none, tr)
  | some featurizer =>
    let tr := tr ++ [AsmEvent.createDataHandler]
    match env.create_data_handler task_config.data_handler task_config.features
        task_config.labels featurizer with
    | none => (none, tr)
    | some data_handler =>
      let data_handler := mdResolve env data_handler metadata
      let tr := tr ++ [mdEvent env metadata]
      let metadata := data_handler.metadata
      let tr := tr ++ [AsmEvent.createModel]
      match env.create_model task_config.model task_config.features metadata with
      | none => (none, tr)
      | some model =>
        let model := msApply env model model_state
        let tr := tr ++ msEvents env model_state
        let model := if cudaEnabled then env.cuda model else model
        let tr := tr ++ (if cudaEnabled then [AsmEvent.cudaMove] else [])
        let tr := tr ++ [AsmEvent.createMetricReporter]
        match env.create_metric_reporter task_config.metric_reporter metadata with
        | none => (none, tr)
        | some metric_reporter =>
          let tr := tr ++ [AsmEvent.createOptimizer]
          match env.create_optimizer model task_config.optimizer with
          | none => (none, tr)
          | some optimizers =>
            let etr : Option (Option s.Exporter) × List AsmEvent :=
              match task_config.exporter with
              | some exporter_cfg =>
                ((env.create_exporter exporter_cfg task_config.features task_config.labels
                    data_handler.metadata task_config.model).map some,
                  tr ++ [AsmEvent.createExporter])
              | none => (some none, tr)
            match etr.1 with
            | none => (none, etr.2)
            | some exporter =>
              let tr := etr.2 ++ [AsmEvent.createTrainer]
              match env.create_trainer task_config.trainer with
              | none => (none, tr)
              | some trainer =>
                let tr := tr ++ [AsmEvent.mkScheduler]
                (some
                  { trainer := trainer
                    data_handler := data_handler
                    model := model
                    metric_reporter := metric_reporter
                    optimizers := optimizers
                    lr_scheduler :=
                      env.scheduler_mk optimizers task_config.scheduler
                        (env.lower_is_better metric_reporter)
                    exporter := exporter }, tr)

/-- Externally observable calls made by `TaskBase.test`, in program order. -/
inductive TestEvent where
  | setTestPath (p : String)
  | getTestIter
  | trainerTest
deriving DecidableEq, Repr

/-- `TaskBase.test(test_path)`: overwrite the data handler's `test_path`,
obtain the test iterator, delegate to the trainer's `test` routine.  Returns
the task with its updated data handler, the trainer's result, and the call
trace. -/
def test {s : Sig} (env : Env s) (task : Task s) (test_path : String) :
    Task s × s.TestResult × List TestEvent :=
  let data_handler := { task.data_handler with test_path := test_path }
  let test_iter := env.get_test_iter data_handler
  let r := env.trainer_test task.trainer test_iter task.model task.metric_reporter
  ({ task with data_handler := data_handler }, r,
    [TestEvent.setTestPath test_path, TestEvent.getTestIter, TestEvent.trainerTest])

/-- Externally observable calls made by `TaskBase.export`, in program order.
`addGraph m i` is `summary_writer.add_graph(m, i)`; `exportToCaffe2 m p` is
`self.exporter.export_to_caffe2(m, p)` (the only operation that writes to the
export path). -/
inductive ExportEvent (s : Sig) where
  | cpuMove
  | addGraph (m : s.Model) (i : s.DummyInput)
  | printSaving (p : String)
  | exportToCaffe2 (m : s.Model) (p : String)

/-- `TaskBase.export(model, export_path, summary_writer=None)`: set the
process-global `cuda_utils.CUDA_ENABLED` flag to `False`, move the model to
CPU, and, when an exporter is configured, optionally record the execution
graph and delegate to `export_to_caffe2`.  Returns the flag value after the
call (the first component) and the call trace. -/
def export' {s : Sig} (env : Env s) (cudaEnabled : Bool) (task : Task s) (model : s.Model)
    (export_path : String) (summary_writer : Option s.SummaryWriter) :
    Bool × List (ExportEvent s) :=
  let cudaEnabled := false
  let model := env.cpu model
  let tr := [ExportEvent.cpuMove (s := s)]
  match task.exporter with
  | some exporter =>
    let tr := tr ++
      (match summary_writer with
        | some _ => [ExportEvent.addGraph model (env.dummy_model_input exporter)]
        | none => [])
    let tr := tr ++ [ExportEvent.printSaving export_path,
      ExportEvent.exportToCaffe2 model export_path]
    (cudaEnabled, tr)
  | none => (cudaEnabled, tr)

/-- `TaskBase.format_prediction(predictions, scores, context, target_meta)`:
pair each prediction with its score into a `{prediction, score}` record; the
`zip` stops at the shorter of the two sequences.  `context` and `target_meta`
are unused by the base implementation. -/
def format_prediction {s : Sig} (predictions : List s.Prediction) (scores : List s.Score)
    (context : PredictContext) (target_meta : s.TargetMeta) : List (PredRecord s) :=
  (predictions.zip scores).map fun ps => { prediction := ps.1, score := ps.2 }

/-- `TaskBase.predict(examples)`: put the model in eval mode, get model inputs
and a context from the data handler, run the forward pass and decode
predictions and scores, then scatter the formatted records back into original
input order through the context's index field.  A slot never written stays
`none` (Python initializes `results` to `[None] * len(predictions)`). -/
def predict {s : Sig} (env : Env s) (task : Task s) (examples : List s.Example) :
    List (Option (PredRecord s)) :=
  let model := env.evalMode task.model
  let ic := env.get_predict_iter task.data_handler examples
  let model_inputs := ic.1
  let context := ic.2
  let ps := env.get_pred model (env.forward model model_inputs)
  let predictions := ps.1
  let scores := ps.2
  let results : List (Option (PredRecord s)) := List.replicate predictions.length none
  (context.index.zip
      (format_prediction predictions scores context (env.target task.data_handler.metadata))).foldl
    (fun res ir => res.set ir.1 (some ir.2)) results

/-! ## A concrete instantiation, used for witnesses and counterexamples -/

/-- A signature in which every collaborator type is `Nat`. -/
@[reducible] def natSig : Sig where
  FeaturesCfg := Nat
  FeaturizerCfg := Nat
  LabelsCfg := Nat
  DataHandlerCfg := Nat
  TrainerCfg := Nat
  OptimizerCfg := Nat
  SchedulerCfg := Nat
  ExporterCfg := Nat
  ModelCfg := Nat
  MetricReporterCfg := Nat
  Featurizer := Nat
  Metadata := Nat
  ModelState := Nat
  Model := Nat
  MetricReporter := Nat
  Optimizers := Nat
  Exporter := Nat
  Trainer := Nat
  Scheduler := Nat
  TestIter := Nat
  TestResult := Nat
  Example := Nat
  PredictInput := Nat
  ModelOutput := Nat
  Prediction := Nat
  Score := Nat
  TargetMeta := Nat
  DummyInput := Nat
  SummaryWriter := Nat

/-- A concrete environment over `natSig`: every factory succeeds, metadata
and model-state objects are truthy exactly when nonzero, `load_metadata`
stores the given metadata, and the predict-path collaborators reorder three
examples by the internal order `[2, 0, 1]`. -/
def natEnv : Env natSig where
  create_featurizer := fun c f => some (c + f)
  create_data_handler := fun _ _ _ _ => some { metadata := 0, test_path := "" }
  load_metadata := fun dh m => { dh with metadata := m }
  init_metadata := fun dh => { dh with metadata := 7 }
  create_model := fun _ _ md => some (md + 1)
  load_state_dict := fun _ st => st
  cuda := fun m => m + 100
  cpu := fun m => m + 1000
  evalMode := fun m => m
  create_metric_reporter := fun _ md => some md
  lower_is_better := fun _ => false
  create_optimizer := fun m _ => some m
  create_exporter := fun e _ _ _ _ => some e
  create_trainer := fun t => some t
  scheduler_mk := fun o _ _ => o
  metaTruthy := fun m => decide (m ≠ 0)
  stateTruthy := fun st => decide (st ≠ 0)
  get_test_iter := fun dh => dh.test_path.length
  trainer_test := fun t it m mr => t + it + m + mr
  get_predict_iter := fun _ exs => (exs.length, { index := [2, 0, 1] })
  forward := fun m inp => m + inp
  get_pred := fun _ out => ([out, out + 1, out + 2], [5, 6, 7])
  target := fun md => md
  dummy_model_input := fun e => e

/-- A concrete task over `natSig` with no exporter configured. -/
def t0 : Task natSig where
  trainer := 0
  data_handler := { metadata := 0, test_path := "" }
  model := 1
  metric_reporter := 0
  optimizers := 0
  lr_scheduler := 0
  exporter := none

/-- A concrete task over `natSig` with an exporter configured. -/
def t1 : Task natSig where
  trainer := 0
  data_handler := { metadata := 0, test_path := "" }
  model := 1
  metric_reporter := 0
  optimizers := 0
  lr_scheduler := 0
  exporter := some 3

/-- A concrete task configuration over `natSig` with an exporter sub-config. -/
def cfg1 : TaskConfig natSig where
  features := 0
  featurizer := 0
  data_handler := 0
  trainer := 4
  optimizer := 0
  scheduler := some 0
  exporter := some 3
  labels := 0
  model := 0
  metric_reporter := 0

/-! ## Helper lemmas about the scatter fold used by `predict` -/

/-- Scattering index/value pairs into a result list preserves its length. -/
lemma foldl_set_length {b : Type} (l : List (Nat × b)) (init : List (Option b)) :
    (l.foldl (fun res ir => res.set ir.1 (some ir.2)) init).length = init.length := by
  induction l generalizing init with
  | nil => rfl
  | cons hd tl ih => rw [List.foldl_cons, ih]; simp

/-- A slot whose index is never written keeps its initial value. -/
lemma foldl_set_getElem?_of_not_mem {b : Type} (l : List (Nat × b)) (init : List (Option b))
    (i : Nat) (h : i ∉ l.map Prod.fst) :
    (l.foldl (fun res ir => res.set ir.1 (some ir.2)) init)[i]? = init[i]? := by
  induction l generalizing init with
  | nil => rfl
  | cons hd tl ih =>
    simp only [List.map_cons, List.mem_cons, not_or] at h
    rw [List.foldl_cons, ih _ h.2, List.getElem?_set_ne (Ne.symm h.1)]

/-- When the written indices are pairwise distinct, the slot at the k-th
written index ends up holding the k-th written value. -/
lemma foldl_set_getElem?_nodup {b : Type} (l : List (Nat × b)) (init : List (Option b))
    (hnd : (l.map Prod.fst).Nodup) (k : Nat) (i : Nat) (v : b)
    (hk : l[k]? = some (i, v)) (hi : i < init.length) :
    (l.foldl (fun res ir => res.set ir.1 (some ir.2)) init)[i]? = some (some v) := by
  induction l generalizing init k with
  | nil => simp at hk
  | cons hd tl ih =>
    rw [List.foldl_cons]
    simp only [List.map_cons, List.nodup_cons] at hnd
    match k, hk with
    | 0, hk =>
      have hhd : hd = (i, v) := by simpa using hk
      subst hhd
      rw [foldl_set_getElem?_of_not_mem _ _ _ hnd.1]
      exact List.getElem?_set_self (by simpa using hi)
    | k + 1, hk =>
      exact ih _ hnd.2 k (by simpa using hk) (by simpa using hi)

/-! ## Claim theorems about `format_prediction`, `export`, and `test` -/

/-- C10: `format_prediction` yields exactly `min |predictions| |scores|`
records, the k-th being `{prediction := predictions[k], score := scores[k]}`,
in order; excess elements of the longer sequence are silently dropped. -/
theorem c10_format_prediction_zips {s : Sig} (predictions : List s.Prediction)
    (scores : List s.Score) (context : PredictContext) (target_meta : s.TargetMeta) :
    (format_prediction predictions scores context target_meta).length =
      min predictions.length scores.length ∧
    ∀ (k : Nat) (p : s.Prediction) (sc : s.Score),
      predictions[k]? = some p → scores[k]? = some sc →
      (format_prediction predictions scores context target_meta)[k]? =
        some (PredRecord.mk p sc) := by
  constructor
  · simp [format_prediction]
  · intro k p sc hp hs
    have hz : (predictions.zip scores)[k]? = some (p, sc) :=
      (List.getElem?_zip_eq_some (z := (p, sc))).mpr ⟨hp, hs⟩
    simp [format_prediction, hz]

/-- C3: after any `export` call the process-global GPU-execution flag is
False, whatever it was before the call and whether or not an exporter is
configured. -/
theorem c3_export_disables_cuda {s : Sig} (env : Env s) (cudaEnabled : Bool) (task : Task s)
    (model : s.Model) (export_path : String) (summary_writer : Option s.SummaryWriter) :
    (export' env cudaEnabled task model export_path summary_writer).1 = false := by
  cases h : task.exporter <;> simp [export', h]

/-- C4: `export` on a task assembled with no exporter makes no call other
than the CPU move: in particular it never calls `export_to_caffe2` (the only
operation writing to the export path) and never touches the summary writer,
and it returns normally. -/
theorem c4_export_without_exporter_is_noop {s : Sig} (env : Env s) (cudaEnabled : Bool)
    (task : Task s) (model : s.Model) (export_path : String)
    (summary_writer : Option s.SummaryWriter) (h : task.exporter = none) :
    (export' env cudaEnabled task model export_path summary_writer).2 = [ExportEvent.cpuMove] ∧
    (∀ m p, ExportEvent.exportToCaffe2 m p ∉
      (export' env cudaEnabled task model export_path summary_writer).2) ∧
    (∀ m i, ExportEvent.addGraph m i ∉
      (export' env cudaEnabled task model export_path summary_writer).2) := by
  refine ⟨by simp [export', h], ?_, ?_⟩ <;> intro a b <;> simp [export', h]

/-- C7 counterexample: a call to `export` with a summary writer supplied but
no exporter configured records no graph at all (the trace is just the CPU
move), so "for every call with a summary_writer supplied, the graph is
recorded" fails as stated. -/
theorem c7_counterexample :
    (export' natEnv true t0 5 "/tmp/out.pb" (some 0)).2 = [ExportEvent.cpuMove] ∧
    ¬ ∃ m i, ExportEvent.addGraph m i ∈ (export' natEnv true t0 5 "/tmp/out.pb" (some 0)).2 := by
  constructor
  · simp [export', t0]
  · rintro ⟨m, i, hm⟩
    simp [export', t0] at hm

/-- C7 (amended): for every call to `export` in which a summary_writer is
supplied and an exporter is configured, the CPU-moved model's graph is
recorded to the summary writer with the exporter's dummy model input,
strictly before the delegation to `export_to_caffe2`. -/
theorem c7_addgraph_before_caffe2 {s : Sig} (env : Env s) (cudaEnabled : Bool) (task : Task s)
    (model : s.Model) (export_path : String) (w : s.SummaryWriter) (ex : s.Exporter)
    (hex : task.exporter = some ex) :
    (export' env cudaEnabled task model export_path (some w)).2 =
      [ExportEvent.cpuMove,
        ExportEvent.addGraph (env.cpu model) (env.dummy_model_input ex),
        ExportEvent.printSaving export_path,
        ExportEvent.exportToCaffe2 (env.cpu model) export_path] := by
  simp [export', hex]

/-- C8: `test` overwrites the data handler's test path before the test
iterator is obtained (the iterator is computed from the updated handler),
invokes the trainer's test routine exactly once, on that iterator with the
task's model and metric reporter, and returns exactly the trainer's value. -/
theorem c8_test_delegates_to_trainer {s : Sig} (env : Env s) (task : Task s)
    (test_path : String) :
    (test env task test_path).1.data_handler.test_path = test_path ∧
    (test env task test_path).2.1 =
      env.trainer_test task.trainer
        (env.get_test_iter { task.data_handler with test_path := test_path })
        task.model task.metric_reporter ∧
    (test env task test_path).2.2 =
      [TestEvent.setTestPath test_path, TestEvent.getTestIter, TestEvent.trainerTest] ∧
    (test env task test_path).2.2.count TestEvent.trainerTest = 1 := by
  refine ⟨rfl, rfl, rfl, ?_⟩
  simp [test]

/-- C1: when the data handler's context index is a permutation of `0..N-1`
and the model produces N predictions and N scores for the N input examples,
`predict` returns a sequence of length N in which the slot at original index
`i` holds the formatted prediction of the processed position `k` that came
from example `i` (the one with `index[k] = i`), regardless of the internal
processing order; in particular every slot is filled. -/
theorem c1_predict_restores_input_order {s : Sig} (env : Env s) (task : Task s)
    (examples : List s.Example) (N : Nat) (inp : s.PredictInput) (ctx : PredictContext)
    (preds : List s.Prediction) (scores : List s.Score)
    (hiter : env.get_predict_iter task.data_handler examples = (inp, ctx))
    (hpred : env.get_pred (env.evalMode task.model)
      (env.forward (env.evalMode task.model) inp) = (preds, scores))
    (hN : examples.length = N)
    (hperm : ctx.index.Perm (List.range N))
    (hp : preds.length = N) (hsc : scores.length = N) :
    (predict env task examples).length = N ∧
    (∀ (k i : Nat) (p : s.Prediction) (sc : s.Score),
      ctx.index[k]? = some i → preds[k]? = some p → scores[k]? = some sc →
      (predict env task examples)[i]? = some (some (PredRecord.mk p sc))) ∧
    (∀ i : Nat, i < N → ∃ (p : s.Prediction) (sc : s.Score),
      (predict env task examples)[i]? = some (some (PredRecord.mk p sc))) := by
  have hpredict : predict env task examples =
      (ctx.index.zip (format_prediction preds scores ctx
          (env.target task.data_handler.metadata))).foldl
        (fun res ir => res.set ir.1 (some ir.2))
        (List.replicate preds.length none) := by
    simp only [predict, hiter, hpred]
  have hlen : ctx.index.length = N := hperm.length_eq.trans (List.length_range N)
  have hnodup : ctx.index.Nodup := hperm.nodup_iff.mpr (List.nodup_range N)
  have hmemlt : ∀ i ∈ ctx.index, i < N := fun i hi =>
    List.mem_range.mp (hperm.mem_iff.mp hi)
  have hfmtlen : (format_prediction preds scores ctx
      (env.target task.data_handler.metadata)).length = N := by
    simp [format_prediction, hp, hsc]
  have hmain : ∀ (k i : Nat) (p : s.Prediction) (sc : s.Score),
      ctx.index[k]? = some i → preds[k]? = some p → scores[k]? = some sc →
      (predict env task examples)[i]? = some (some (PredRecord.mk p sc)) := by
    intro k i p sc hik hkp hks
    have hz : (preds.zip scores)[k]? = some (p, sc) :=
      (List.getElem?_zip_eq_some (z := (p, sc))).mpr ⟨hkp, hks⟩
    have hfmt : (format_prediction preds scores ctx
        (env.target task.data_handler.metadata))[k]? = some (PredRecord.mk p sc) := by
      simp [format_prediction, hz]
    have hzip : (ctx.index.zip (format_prediction preds scores ctx
        (env.target task.data_handler.metadata)))[k]? = some (i, PredRecord.mk p sc) :=
      (List.getElem?_zip_eq_some (z := (i, PredRecord.mk p sc))).mpr ⟨hik, hfmt⟩
    have hfst : (ctx.index.zip (format_prediction preds scores ctx
        (env.target task.data_handler.metadata))).map Prod.fst = ctx.index :=
      List.map_fst_zip _ _ (by rw [hlen, hfmtlen])
    have hilt : i < (List.replicate preds.length
        (none : Option (PredRecord s))).length := by
      rw [List.length_replicate, hp]
      exact hmemlt i (List.getElem?_mem hik)
    rw [hpredict]
    exact foldl_set_getElem?_nodup _ _ (by rw [hfst]; exact hnodup) k i _ hzip hilt
  refine ⟨?_, hmain, ?_⟩
  · rw [hpredict, foldl_set_length, List.length_replicate, hp]
  · intro i hiN
    have hmem : i ∈ ctx.index := hperm.mem_iff.mpr (List.mem_range.mpr hiN)
    obtain ⟨k, hk⟩ := List.mem_iff_getElem?.mp hmem
    have hkN : k < N := by
      obtain ⟨hklt, -⟩ := List.getElem?_eq_some.mp hk
      exact hlen ▸ hklt
    have hkp : preds[k]? = some preds[k] := List.getElem?_eq_getElem (by rw [hp]; exact hkN)
    have hks : scores[k]? = some scores[k] :=
      List.getElem?_eq_getElem (by rw [hsc]; exact hkN)
    exact ⟨_, _, hmain k i _ _ hk hkp hks⟩

/-! ## Closed form of a successful assembly -/

/-- The model produced by a successful assembly: saved state applied first
(when truthy), then the GPU move (when the flag is enabled). -/
def asmModel {s : Sig} (env : Env s) (cudaEnabled : Bool) (model : s.Model)
    (ms : Option s.ModelState) : s.Model :=
  if cudaEnabled then env.cuda (msApply env model ms) else msApply env model ms

/-- The full call trace of a successful assembly. -/
def asmTrace {s : Sig} (env : Env s) (cudaEnabled : Bool) (md : Option s.Metadata)
    (ms : Option s.ModelState) (hasExporter : Bool) : List AsmEvent :=
  [AsmEvent.printConfig, AsmEvent.createFeaturizer, AsmEvent.createDataHandler,
      mdEvent env md, AsmEvent.createModel] ++
    msEvents env ms ++
    (if cudaEnabled then [AsmEvent.cudaMove] else []) ++
    [AsmEvent.createMetricReporter, AsmEvent.createOptimizer] ++
    (if hasExporter then [AsmEvent.createExporter] else []) ++
    [AsmEvent.createTrainer, AsmEvent.mkScheduler]

/-- When every factory call succeeds (the config resolves to registered
implementations), `from_config` succeeds and its result and trace have an
explicit closed form. -/
lemma from_config_eq {s : Sig} (env : Env s) (cudaEnabled : Bool) (cfg : TaskConfig s)
    (md : Option s.Metadata) (ms : Option s.ModelState)
    (fz : s.Featurizer) (dh0 : DataHandler s)
    (mdlF : s.Metadata → s.Model) (mrF : s.Metadata → s.MetricReporter)
    (optF : s.Model → s.Optimizers) (expF : s.ExporterCfg → s.Metadata → s.Exporter)
    (trn : s.Trainer)
    (hfz : env.create_featurizer cfg.featurizer cfg.features = some fz)
    (hdh : env.create_data_handler cfg.data_handler cfg.features cfg.labels fz = some dh0)
    (hmdl : ∀ x, env.create_model cfg.model cfg.features x = some (mdlF x))
    (hmr : ∀ x, env.create_metric_reporter cfg.metric_reporter x = some (mrF x))
    (hopt : ∀ m, env.create_optimizer m cfg.optimizer = some (optF m))
    (hexp : ∀ ec x,
      env.create_exporter ec cfg.features cfg.labels x cfg.model = some (expF ec x))
    (htrn : env.create_trainer cfg.trainer = some trn) :
    from_config env cudaEnabled cfg md ms =
      (some
        { trainer := trn
          data_handler := mdResolve env dh0 md
          model := asmModel env cudaEnabled (mdlF (mdResolve env dh0 md).metadata) ms
          metric_reporter := mrF (mdResolve env dh0 md).metadata
          optimizers :=
            optF (asmModel env cudaEnabled (mdlF (mdResolve env dh0 md).metadata) ms)
          lr_scheduler :=
            env.scheduler_mk
              (optF (asmModel env cudaEnabled (mdlF (mdResolve env dh0 md).metadata) ms))
              cfg.scheduler
              (env.lower_is_better (mrF (mdResolve env dh0 md).metadata))
          exporter := cfg.exporter.map fun ec => expF ec (mdResolve env dh0 md).metadata },
        asmTrace env cudaEnabled md ms cfg.exporter.isSome) := by
  rcases hec : cfg.exporter with _ | ec <;>
    simp [from_config, asmModel, asmTrace, hfz, hdh, hmdl, hmr, hopt, hexp, htrn, hec]

/-! ## Basic facts about the branch helpers -/

/-- The metadata-resolution step emits either a `load_metadata` or an
`init_metadata` call. -/
lemma mdEvent_eq_or {s : Sig} (env : Env s) (md : Option s.Metadata) :
    mdEvent env md = AsmEvent.loadMetadata ∨ mdEvent env md = AsmEvent.initMetadata := by
  rcases md with _ | m
  · exact Or.inr rfl
  · by_cases h : env.metaTruthy m <;> simp [mdEvent, h]

/-- The model-state step emits either nothing or a single `load_state_dict`
call. -/
lemma msEvents_eq_or {s : Sig} (env : Env s) (ms : Option s.ModelState) :
    msEvents env ms = [] ∨ msEvents env ms = [AsmEvent.loadStateDict] := by
  rcases ms with _ | st
  · exact Or.inl rfl
  · by_cases h : env.stateTruthy st <;> simp [msEvents, h]

/-! ## Claim theorems about `from_config` -/

/-- C2: when the caller supplies previously saved (truthy) metadata and every
factory resolves, `from_config` calls `load_metadata` and never
`init_metadata`, and the model, metric reporter and exporter are built from
the metadata read back from the data handler after that load — which, under
the collaborator contract that `load_metadata` stores its argument, is
exactly the supplied metadata. -/
theorem c2_from_config_metadata_roundtrip {s : Sig} (env : Env s) (cudaEnabled : Bool)
    (cfg : TaskConfig s) (ms : Option s.ModelState) (m : s.Metadata)
    (fz : s.Featurizer) (dh0 : DataHandler s)
    (mdlF : s.Metadata → s.Model) (mrF : s.Metadata → s.MetricReporter)
    (optF : s.Model → s.Optimizers) (expF : s.ExporterCfg → s.Metadata → s.Exporter)
    (trn : s.Trainer)
    (hm : env.metaTruthy m = true)
    (hload : ∀ dh x, (env.load_metadata dh x).metadata = x)
    (hfz : env.create_featurizer cfg.featurizer cfg.features = some fz)
    (hdh : env.create_data_handler cfg.data_handler cfg.features cfg.labels fz = some dh0)
    (hmdl : ∀ x, env.create_model cfg.model cfg.features x = some (mdlF x))
    (hmr : ∀ x, env.create_metric_reporter cfg.metric_reporter x = some (mrF x))
    (hopt : ∀ x, env.create_optimizer x cfg.optimizer = some (optF x))
    (hexp : ∀ ec x,
      env.create_exporter ec cfg.features cfg.labels x cfg.model = some (expF ec x))
    (htrn : env.create_trainer cfg.trainer = some trn) :
    AsmEvent.loadMetadata ∈ (from_config env cudaEnabled cfg (some m) ms).2 ∧
    AsmEvent.initMetadata ∉ (from_config env cudaEnabled cfg (some m) ms).2 ∧
    ∃ t, (from_config env cudaEnabled cfg (some m) ms).1 = some t ∧
      t.data_handler = env.load_metadata dh0 m ∧
      t.data_handler.metadata = m ∧
      t.model = asmModel env cudaEnabled (mdlF m) ms ∧
      t.metric_reporter = mrF m ∧
      t.exporter = cfg.exporter.map fun ec => expF ec m := by
  rw [from_config_eq env cudaEnabled cfg (some m) ms fz dh0 mdlF mrF optF expF trn
    hfz hdh hmdl hmr hopt hexp htrn]
  have hres : mdResolve env dh0 (some m) = env.load_metadata dh0 m := by
    simp [mdResolve, hm]
  have hmeta : (mdResolve env dh0 (some m)).metadata = m := by rw [hres, hload]
  have hev : mdEvent env (some m) = AsmEvent.loadMetadata := by simp [mdEvent, hm]
  refine ⟨?_, ?_, ?_⟩
  · simp [asmTrace, hev]
  · rcases msEvents_eq_or env ms with hms | hms <;>
      cases cudaEnabled <;> cases cfg.exporter.isSome <;>
      simp [asmTrace, hev, hms]
  · exact ⟨_, rfl, hres, hmeta, by rw [hmeta], by rw [hmeta], by rw [hmeta]⟩

/-- C5: when every sub-config resolves to a registered implementation (every
factory call succeeds), `from_config` returns a task; its trainer, data
handler, model, metric reporter, optimizers and scheduler are the created
components (non-null by construction), and its exporter is absent exactly
when the exporter sub-config is absent. -/
theorem c5_from_config_wires_components {s : Sig} (env : Env s) (cudaEnabled : Bool)
    (cfg : TaskConfig s) (md : Option s.Metadata) (ms : Option s.ModelState)
    (fz : s.Featurizer) (dh0 : DataHandler s)
    (mdlF : s.Metadata → s.Model) (mrF : s.Metadata → s.MetricReporter)
    (optF : s.Model → s.Optimizers) (expF : s.ExporterCfg → s.Metadata → s.Exporter)
    (trn : s.Trainer)
    (hfz : env.create_featurizer cfg.featurizer cfg.features = some fz)
    (hdh : env.create_data_handler cfg.data_handler cfg.features cfg.labels fz = some dh0)
    (hmdl : ∀ x, env.create_model cfg.model cfg.features x = some (mdlF x))
    (hmr : ∀ x, env.create_metric_reporter cfg.metric_reporter x = some (mrF x))
    (hopt : ∀ x, env.create_optimizer x cfg.optimizer = some (optF x))
    (hexp : ∀ ec x,
      env.create_exporter ec cfg.features cfg.labels x cfg.model = some (expF ec x))
    (htrn : env.create_trainer cfg.trainer = some trn) :
    ∃ t, (from_config env cudaEnabled cfg md ms).1 = some t ∧
      (t.exporter.isSome ↔ cfg.exporter.isSome) ∧
      t.trainer = trn ∧
      t.data_handler = mdResolve env dh0 md ∧
      t.model = asmModel env cudaEnabled (mdlF (mdResolve env dh0 md).metadata) ms ∧
      t.metric_reporter = mrF (mdResolve env dh0 md).metadata ∧
      t.optimizers = optF t.model ∧
      t.lr_scheduler =
        env.scheduler_mk t.optimizers cfg.scheduler
          (env.lower_is_better t.metric_reporter) := by
  rw [from_config_eq env cudaEnabled cfg md ms fz dh0 mdlF mrF optF expF trn
    hfz hdh hmdl hmr hopt hexp htrn]
  exact ⟨_, rfl, by cases cfg.exporter <;> simp, rfl, rfl, rfl, rfl, rfl, rfl⟩

/-- C6: when the caller supplies truthy saved model state and every factory
resolves, the state is loaded into the freshly created model strictly before
any device placement (both in the data flow of the final model and in the
call order), and the GPU move happens exactly when the process-global flag is
enabled at assembly time. -/
theorem c6_from_config_load_state_before_cuda {s : Sig} (env : Env s) (cudaEnabled : Bool)
    (cfg : TaskConfig s) (md : Option s.Metadata) (st : s.ModelState)
    (fz : s.Featurizer) (dh0 : DataHandler s)
    (mdlF : s.Metadata → s.Model) (mrF : s.Metadata → s.MetricReporter)
    (optF : s.Model → s.Optimizers) (expF : s.ExporterCfg → s.Metadata → s.Exporter)
    (trn : s.Trainer)
    (hst : env.stateTruthy st = true)
    (hfz : env.create_featurizer cfg.featurizer cfg.features = some fz)
    (hdh : env.create_data_handler cfg.data_handler cfg.features cfg.labels fz = some dh0)
    (hmdl : ∀ x, env.create_model cfg.model cfg.features x = some (mdlF x))
    (hmr : ∀ x, env.create_metric_reporter cfg.metric_reporter x = some (mrF x))
    (hopt : ∀ x, env.create_optimizer x cfg.optimizer = some (optF x))
    (hexp : ∀ ec x,
      env.create_exporter ec cfg.features cfg.labels x cfg.model = some (expF ec x))
    (htrn : env.create_trainer cfg.trainer = some trn) :
    (∃ t, (from_config env cudaEnabled cfg md (some st)).1 = some t ∧
      t.model =
        if cudaEnabled then
          env.cuda (env.load_state_dict (mdlF (mdResolve env dh0 md).metadata) st)
        else env.load_state_dict (mdlF (mdResolve env dh0 md).metadata) st) ∧
    AsmEvent.loadStateDict ∈ (from_config env cudaEnabled cfg md (some st)).2 ∧
    (AsmEvent.cudaMove ∈ (from_config env cudaEnabled cfg md (some st)).2 ↔
      cudaEnabled = true) ∧
    (cudaEnabled = true →
      List.Sublist [AsmEvent.loadStateDict, AsmEvent.cudaMove]
        (from_config env cudaEnabled cfg md (some st)).2) := by
  rw [from_config_eq env cudaEnabled cfg md (some st) fz dh0 mdlF mrF optF expF trn
    hfz hdh hmdl hmr hopt hexp htrn]
  have hms : msEvents env (some st) = [AsmEvent.loadStateDict] := by simp [msEvents, hst]
  refine ⟨⟨_, rfl, by simp [asmModel, msApply, hst]⟩, ?_, ?_, ?_⟩
  · simp [asmTrace, hms]
  · rcases mdEvent_eq_or env md with hev | hev <;>
      cases cudaEnabled <;> cases cfg.exporter.isSome <;>
      simp [asmTrace, hms, hev]
  · intro hc
    subst hc
    simp only [asmTrace, hms, if_pos, List.append_assoc, List.cons_append,
      List.nil_append, List.singleton_append]
    exact (((((List.nil_sublist _).cons₂ _).cons₂ _).cons _).cons _).cons _ |>.cons _ |>.cons _

/-- C9: `from_config` branches on Python truthiness, not on presence.
Supplying falsy-but-not-None metadata is the same call as supplying no
metadata at all: `init_metadata` is called, `load_metadata` is not, and the
supplied value is discarded (the whole result coincides with the
`metadata=None` run).  Supplying falsy model state never calls
`load_state_dict`. -/
theorem c9_from_config_truthiness_not_presence {s : Sig} (env : Env s) (cudaEnabled : Bool)
    (cfg : TaskConfig s) (md : Option s.Metadata) (ms : Option s.ModelState)
    (m : s.Metadata) (st : s.ModelState)
    (fz : s.Featurizer) (dh0 : DataHandler s)
    (mdlF : s.Metadata → s.Model) (mrF : s.Metadata → s.MetricReporter)
    (optF : s.Model → s.Optimizers) (expF : s.ExporterCfg → s.Metadata → s.Exporter)
    (trn : s.Trainer)
    (hm : env.metaTruthy m = false) (hst : env.stateTruthy st = false)
    (hfz : env.create_featurizer cfg.featurizer cfg.features = some fz)
    (hdh : env.create_data_handler cfg.data_handler cfg.features cfg.labels fz = some dh0)
    (hmdl : ∀ x, env.create_model cfg.model cfg.features x = some (mdlF x))
    (hmr : ∀ x, env.create_metric_reporter cfg.metric_reporter x = some (mrF x))
    (hopt : ∀ x, env.create_optimizer x cfg.optimizer = some (optF x))
    (hexp : ∀ ec x,
      env.create_exporter ec cfg.features cfg.labels x cfg.model = some (expF ec x))
    (htrn : env.create_trainer cfg.trainer = some trn) :
    from_config env cudaEnabled cfg (some m) ms = from_config env cudaEnabled cfg none ms ∧
    AsmEvent.initMetadata ∈ (from_config env cudaEnabled cfg (some m) ms).2 ∧
    AsmEvent.loadMetadata ∉ (from_config env cudaEnabled cfg (some m) ms).2 ∧
    AsmEvent.loadStateDict ∉ (from_config env cudaEnabled cfg md (some st)).2 := by
  have hev : mdEvent env (some m) = AsmEvent.initMetadata := by simp [mdEvent, hm]
  have hres : mdResolve env dh0 (some m) = env.init_metadata dh0 := by simp [mdResolve, hm]
  have hms : msEvents env (some st) = [] := by simp [msEvents, hst]
  refine ⟨?_, ?_, ?_, ?_⟩
  · simp [from_config, mdResolve, mdEvent, hm]
  · rw [from_config_eq env cudaEnabled cfg (some m) ms fz dh0 mdlF mrF optF expF trn
      hfz hdh hmdl hmr hopt hexp htrn]
    simp [asmTrace, hev]
  · rw [from_config_eq env cudaEnabled cfg (some m) ms fz dh0 mdlF mrF optF expF trn
      hfz hdh hmdl hmr hopt hexp htrn]
    rcases msEvents_eq_or env ms with hms' | hms' <;>
      cases cudaEnabled <;> cases cfg.exporter.isSome <;>
      simp [asmTrace, hev, hms']
  · rw [from_config_eq env cudaEnabled cfg md (some st) fz dh0 mdlF mrF optF expF trn
      hfz hdh hmdl hmr hopt hexp htrn]
    rcases mdEvent_eq_or env md with hev' | hev' <;>
      cases cudaEnabled <;> cases cfg.exporter.isSome <;>
      simp [asmTrace, hms, hev']

/-! ## Witnesses: each hypothesis-bearing claim theorem applied at a
concrete input over `natSig` -/

/-- C10 witness: three predictions and two scores give two records, the first
pairing prediction 1 with score 4. -/
theorem c10_witness :
    (format_prediction (s := natSig) [1, 2, 3] [4, 5] { index := [] } 0).length = min 3 2 ∧
    ([1, 2, 3] : List Nat)[0]? = some 1 ∧ ([4, 5] : List Nat)[0]? = some 4 ∧
    (format_prediction (s := natSig) [1, 2, 3] [4, 5] { index := [] } 0)[0]? =
      some (PredRecord.mk 1 4) :=
  ⟨(c10_format_prediction_zips (s := natSig) [1, 2, 3] [4, 5] { index := [] } 0).1,
    rfl, rfl,
    (c10_format_prediction_zips (s := natSig) [1, 2, 3] [4, 5] { index := [] } 0).2
      0 1 4 rfl rfl⟩

/-- C4 witness: exporting through `t0`, which has no exporter, only moves the
model to CPU; no graph is recorded and nothing is written. -/
theorem c4_witness :
    t0.exporter = none ∧
    ((export' natEnv true t0 5 "/tmp/out.pb" none).2 = [ExportEvent.cpuMove] ∧
      (∀ m p, ExportEvent.exportToCaffe2 m p ∉
        (export' natEnv true t0 5 "/tmp/out.pb" none).2) ∧
      (∀ m i, ExportEvent.addGraph m i ∉
        (export' natEnv true t0 5 "/tmp/out.pb" none).2)) :=
  ⟨rfl, c4_export_without_exporter_is_noop natEnv true t0 5 "/tmp/out.pb" none rfl⟩

/-- C7 witness (amended claim): with exporter 3 configured and a summary
writer supplied, the graph of the CPU-moved model is recorded before the
`export_to_caffe2` delegation. -/
theorem c7_witness :
    t1.exporter = some 3 ∧
    (export' natEnv true t1 5 "/tmp/out.pb" (some 0)).2 =
      [ExportEvent.cpuMove,
        ExportEvent.addGraph (natEnv.cpu 5) (natEnv.dummy_model_input 3),
        ExportEvent.printSaving "/tmp/out.pb",
        ExportEvent.exportToCaffe2 (natEnv.cpu 5) "/tmp/out.pb"] :=
  ⟨rfl, c7_addgraph_before_caffe2 natEnv true t1 5 "/tmp/out.pb" 0 3 rfl⟩

/-- C1 witness: three examples internally reordered to `[2, 0, 1]`; `predict`
returns three slots, each original index holding its own formatted record. -/
theorem c1_witness :
    natEnv.get_predict_iter t0.data_handler [10, 20, 30] = (3, { index := [2, 0, 1] }) ∧
    natEnv.get_pred (natEnv.evalMode t0.model)
      (natEnv.forward (natEnv.evalMode t0.model) 3) = ([4, 5, 6], [5, 6, 7]) ∧
    ([2, 0, 1] : List Nat).Perm (List.range 3) ∧
    ((predict natEnv t0 [10, 20, 30]).length = 3 ∧
      (∀ (k i : Nat) (p : natSig.Prediction) (sc : natSig.Score),
        (PredictContext.mk [2, 0, 1]).index[k]? = some i →
        ([4, 5, 6] : List Nat)[k]? = some p → ([5, 6, 7] : List Nat)[k]? = some sc →
        (predict natEnv t0 [10, 20, 30])[i]? = some (some (PredRecord.mk p sc))) ∧
      (∀ i : Nat, i < 3 → ∃ (p : natSig.Prediction) (sc : natSig.Score),
        (predict natEnv t0 [10, 20, 30])[i]? = some (some (PredRecord.mk p sc)))) :=
  ⟨rfl, rfl, by decide,
    c1_predict_restores_input_order natEnv t0 [10, 20, 30] 3 3 { index := [2, 0, 1] }
      [4, 5, 6] [5, 6, 7] rfl rfl rfl (by decide) rfl rfl⟩

/-- C2 witness: supplying saved metadata 5 (truthy) round-trips: the load is
performed, `init_metadata` is not, and model, metric reporter and exporter
are built from metadata 5. -/
theorem c2_witness :
    natEnv.metaTruthy 5 = true ∧
    natEnv.create_trainer cfg1.trainer = some 4 ∧
    (AsmEvent.loadMetadata ∈ (from_config natEnv false cfg1 (some 5) none).2 ∧
      AsmEvent.initMetadata ∉ (from_config natEnv false cfg1 (some 5) none).2 ∧
      ∃ t, (from_config natEnv false cfg1 (some 5) none).1 = some t ∧
        t.data_handler = natEnv.load_metadata { metadata := 0, test_path := "" } 5 ∧
        t.data_handler.metadata = 5 ∧
        t.model = asmModel natEnv false 6 none ∧
        t.metric_reporter = 5 ∧
        t.exporter = cfg1.exporter.map fun ec => ec) :=
  ⟨rfl, rfl,
    c2_from_config_metadata_roundtrip natEnv false cfg1 none 5 0
      { metadata := 0, test_path := "" } (fun x => x + 1) (fun x => x) (fun x => x)
      (fun e _ => e) 4 rfl (fun _ _ => rfl) rfl rfl (fun _ => rfl) (fun _ => rfl)
      (fun _ => rfl) (fun _ _ => rfl) rfl⟩

/-- C5 witness: with every factory of `natEnv` succeeding on `cfg1` (whose
exporter sub-config is present), assembly returns a task whose exporter is
present. -/
theorem c5_witness :
    natEnv.create_featurizer cfg1.featurizer cfg1.features = some 0 ∧
    ∃ t, (from_config natEnv false cfg1 none none).1 = some t ∧
      (t.exporter.isSome ↔ cfg1.exporter.isSome) ∧
      t.trainer = 4 ∧
      t.data_handler = mdResolve natEnv { metadata := 0, test_path := "" } none ∧
      t.model = asmModel natEnv false
        ((mdResolve natEnv { metadata := 0, test_path := "" } none).metadata + 1) none ∧
      t.metric_reporter = (mdResolve natEnv { metadata := 0, test_path := "" } none).metadata ∧
      t.optimizers = t.model ∧
      t.lr_scheduler =
        natEnv.scheduler_mk t.optimizers cfg1.scheduler
          (natEnv.lower_is_better t.metric_reporter) :=
  ⟨rfl,
    c5_from_config_wires_components natEnv false cfg1 none none 0
      { metadata := 0, test_path := "" } (fun x => x + 1) (fun x => x) (fun x => x)
      (fun e _ => e) 4 rfl rfl (fun _ => rfl) (fun _ => rfl) (fun _ => rfl)
      (fun _ _ => rfl) rfl⟩

/-- C6 witness: supplying truthy saved model state 5 with the GPU flag
enabled: the state is loaded, then the GPU move happens, in that order. -/
theorem c6_witness :
    natEnv.stateTruthy 5 = true ∧
    ((∃ t, (from_config natEnv true cfg1 none (some 5)).1 = some t ∧
        t.model =
          if true then
            natEnv.cuda (natEnv.load_state_dict
              ((mdResolve natEnv { metadata := 0, test_path := "" } none).metadata + 1) 5)
          else natEnv.load_state_dict
            ((mdResolve natEnv { metadata := 0, test_path := "" } none).metadata + 1) 5) ∧
      AsmEvent.loadStateDict ∈ (from_config natEnv true cfg1 none (some 5)).2 ∧
      (AsmEvent.cudaMove ∈ (from_config natEnv true cfg1 none (some 5)).2 ↔ true = true) ∧
      (true = true →
        List.Sublist [AsmEvent.loadStateDict, AsmEvent.cudaMove]
          (from_config natEnv true cfg1 none (some 5)).2)) :=
  ⟨rfl,
    c6_from_config_load_state_before_cuda natEnv true cfg1 none 5 0
      { metadata := 0, test_path := "" } (fun x => x + 1) (fun x => x) (fun x => x)
      (fun e _ => e) 4 rfl rfl rfl (fun _ => rfl) (fun _ => rfl) (fun _ => rfl)
      (fun _ _ => rfl) rfl⟩

/-- C9 witness: metadata 0 and model state 0 are falsy but not None in
`natEnv`; the run with metadata 0 equals the run with no metadata,
`init_metadata` is called, and `load_state_dict` is never called. -/
theorem c9_witness :
    natEnv.metaTruthy 0 = false ∧
    natEnv.stateTruthy 0 = false ∧
    (from_config natEnv false cfg1 (some 0) none = from_config natEnv false cfg1 none none ∧
      AsmEvent.initMetadata ∈ (from_config natEnv false cfg1 (some 0) none).2 ∧
      AsmEvent.loadMetadata ∉ (from_config natEnv false cfg1 (some 0) none).2 ∧
      AsmEvent.loadStateDict ∉ (from_config natEnv false cfg1 none (some 0)).2) :=
  ⟨rfl, rfl,
    c9_from_config_truthiness_not_presence natEnv false cfg1 none none 0 0 0
      { metadata := 0, test_path := "" } (fun x => x + 1) (fun x => x) (fun x => x)
      (fun e _ => e) 4 rfl rfl rfl rfl (fun _ => rfl) (fun _ => rfl) (fun _ => rfl)
      (fun _ _ => rfl) rfl⟩

end PyTextTask
